import Mathlib

/-!
Verification development for the recommendation-demo repository.

The embedding models, from the source:
- real_prototype/user_profiling.py : time decay, price bucketing, event
  weighting, search insight extraction and user profile construction;
- real_prototype/recommendation.py : candidate filtering, per-dimension
  scoring, author-diversity filtering, the main recommendation pipeline with
  its bestseller fallback pool, and recommendation explanation;
- content_based_filtering/personalization_algorithm.py : the known-material
  filter, the recommendation dispatch and the popularity baseline.

Conventions: timestamps are integers counting whole days (the Python code
subtracts datetimes and keeps the day count); monetary amounts and scores
computed by the recommendation layer are exact rationals standing for the
floating point values of the source; the time-decay factor, which is a real
power of two, lives in the real numbers.  Python dictionaries keyed by id are
association lists in insertion order; Python `Counter` objects are association
lists updated in place with new keys appended at the end, matching Counter
insertion semantics.
-/

namespace RecDemo

/-- Price bucketing from the source.  The same function body appears three
times in the repository: `PriceAnalyzer.get_price_range`,
`MaterialRecommender._get_price_range` and
`RecommendationService._get_price_range` (lines 225-234 of user_profiling.py,
151-160 and 523-532 of recommendation.py). -/
def get_price_range (price : ℚ) : String :=
  if price = 0 then "free"
  else if 0 < price ∧ price ≤ 2 then "low"
  else if 2 < price ∧ price ≤ 7 then "medium"
  else "high"

/-- Rank of a bucket name in the fixed ordering free, low, medium, high that
the specification states and that `MaterialRecommender._is_price_adjacent`
hard-codes as `range_order`. -/
def bucket_rank : String → ℕ
  | "free" => 0
  | "low" => 1
  | "medium" => 2
  | "high" => 3
  | _ => 4

/-- `EventProcessor.calculate_time_decay` (user_profiling.py lines 165-187):
days elapsed between the event and the reference time, clamped at zero, fed
into the exponential decay `2 ^ (-days / 30)` with a half-life of 30 days.
Both times are measured in whole days. -/
noncomputable def calculate_time_decay (event_time reference_time : ℤ) : ℝ :=
  (2 : ℝ) ^ (-((max 0 (reference_time - event_time) : ℤ) : ℝ) / 30)

lemma calculate_time_decay_of_nonneg {ev ref : ℤ} (h : 0 ≤ ref - ev) :
    calculate_time_decay ev ref = (2 : ℝ) ^ (-((ref - ev : ℤ) : ℝ) / 30) := by
  rw [calculate_time_decay, max_eq_right h]

lemma get_price_range_free {p : ℚ} (h : p = 0) : get_price_range p = "free" := by
  simp [get_price_range, h]

lemma get_price_range_low {p : ℚ} (h0 : 0 < p) (h2 : p ≤ 2) :
    get_price_range p = "low" := by
  have hne : ¬ p = 0 := by linarith
  simp [get_price_range, hne, h0, h2]

lemma get_price_range_medium {p : ℚ} (h2 : 2 < p) (h7 : p ≤ 7) :
    get_price_range p = "medium" := by
  have hne : ¬ p = 0 := by linarith
  have hnl : ¬ (0 < p ∧ p ≤ 2) := by rintro ⟨-, h⟩; linarith
  simp [get_price_range, hne, hnl, h2, h7]

lemma get_price_range_high {p : ℚ} (h : 7 < p) : get_price_range p = "high" := by
  have hne : ¬ p = 0 := by linarith
  have hnl : ¬ (0 < p ∧ p ≤ 2) := by rintro ⟨-, hx⟩; linarith
  have hnm : ¬ (2 < p ∧ p ≤ 7) := by rintro ⟨-, hx⟩; linarith
  simp [get_price_range, hne, hnl, hnm]

lemma get_price_range_cases (p : ℚ) (h : 0 ≤ p) :
    (p = 0 ∧ get_price_range p = "free") ∨
    ((0 < p ∧ p ≤ 2) ∧ get_price_range p = "low") ∨
    ((2 < p ∧ p ≤ 7) ∧ get_price_range p = "medium") ∨
    (7 < p ∧ get_price_range p = "high") := by
  rcases eq_or_lt_of_le h with h0 | h0
  · exact Or.inl ⟨h0.symm, get_price_range_free h0.symm⟩
  · rcases le_or_lt p 2 with h2 | h2
    · exact Or.inr (Or.inl ⟨⟨h0, h2⟩, get_price_range_low h0 h2⟩)
    · rcases le_or_lt p 7 with h7 | h7
      · exact Or.inr (Or.inr (Or.inl ⟨⟨h2, h7⟩, get_price_range_medium h2 h7⟩))
      · exact Or.inr (Or.inr (Or.inr ⟨h7, get_price_range_high h7⟩))

lemma bucket_rank_free : bucket_rank "free" = 0 := rfl

lemma bucket_rank_low : bucket_rank "low" = 1 := rfl

lemma bucket_rank_medium : bucket_rank "medium" = 2 := rfl

lemma bucket_rank_high : bucket_rank "high" = 3 := rfl

/-- C6: the time-decay function returns `2 ^ (-days / 30)`: exactly `1/2` at
30 elapsed days, `1` at zero elapsed days, `1` for events after the reference
time (elapsed days clamped at zero), and its value always lies in `(0, 1]`. -/
theorem claim_time_decay_spec :
    (∀ ev ref : ℤ, ref - ev = 30 → calculate_time_decay ev ref = 1 / 2) ∧
    (∀ ev ref : ℤ, ref - ev = 0 → calculate_time_decay ev ref = 1) ∧
    (∀ ev ref : ℤ, ref - ev < 0 → calculate_time_decay ev ref = 1) ∧
    (∀ ev ref : ℤ,
      0 < calculate_time_decay ev ref ∧ calculate_time_decay ev ref ≤ 1) := by
  refine ⟨?_, ?_, ?_, ?_⟩
  · intro ev ref h
    rw [calculate_time_decay_of_nonneg (by omega), h]
    have hexp : (-(((30 : ℤ) : ℝ)) / 30) = (-1 : ℝ) := by push_cast; ring
    rw [hexp, Real.rpow_neg_one]
    norm_num
  · intro ev ref h
    rw [calculate_time_decay_of_nonneg (by omega), h]
    have hexp : (-(((0 : ℤ) : ℝ)) / 30) = (0 : ℝ) := by push_cast; ring
    rw [hexp, Real.rpow_zero]
  · intro ev ref h
    have hmax : max 0 (ref - ev) = 0 := max_eq_left (by omega)
    rw [calculate_time_decay, hmax]
    have hexp : (-(((0 : ℤ) : ℝ)) / 30) = (0 : ℝ) := by push_cast; ring
    rw [hexp, Real.rpow_zero]
  · intro ev ref
    constructor
    · exact Real.rpow_pos_of_pos (by norm_num) _
    · apply Real.rpow_le_one_of_one_le_of_nonpos (by norm_num)
      have h0 : (0 : ℝ) ≤ ((max 0 (ref - ev) : ℤ) : ℝ) := by
        exact_mod_cast le_max_left 0 (ref - ev)
      have : -((max 0 (ref - ev) : ℤ) : ℝ) ≤ 0 := by linarith
      linarith [div_nonpos_of_nonpos_of_nonneg this (by norm_num : (0:ℝ) ≤ 30)]

/-- Witness for C6 at concrete inputs: an event 30 days before the reference
time decays to one half, an event at the reference time keeps weight one, and
an event dated after the reference time keeps weight one. -/
theorem claim_time_decay_spec_witness :
    calculate_time_decay 0 30 = 1 / 2 ∧
    calculate_time_decay 5 5 = 1 ∧
    calculate_time_decay 40 10 = 1 :=
  ⟨claim_time_decay_spec.1 0 30 (by decide),
   claim_time_decay_spec.2.1 5 5 (by decide),
   claim_time_decay_spec.2.2.1 40 10 (by decide)⟩

/-- C7: the price buckets hit the boundary values the specification lists
(0 to free, 2.00 to low, 2.01 to medium, 7.00 to medium, 7.01 to high), they
partition the non-negative prices (each non-negative price falls into exactly
one bucket, characterised by the stated interval), and the buckets are ordered
free, low, medium, high: a price in a strictly higher bucket is strictly
larger. -/
theorem claim_price_bucket_boundaries :
    (get_price_range 0 = "free" ∧ get_price_range 2 = "low" ∧
     get_price_range 2.01 = "medium" ∧ get_price_range 7 = "medium" ∧
     get_price_range 7.01 = "high") ∧
    (∀ p : ℚ, 0 ≤ p →
      ((get_price_range p = "free" ↔ p = 0) ∧
       (get_price_range p = "low" ↔ 0 < p ∧ p ≤ 2) ∧
       (get_price_range p = "medium" ↔ 2 < p ∧ p ≤ 7) ∧
       (get_price_range p = "high" ↔ 7 < p))) ∧
    (∀ p q : ℚ, 0 ≤ p → 0 ≤ q →
      bucket_rank (get_price_range p) < bucket_rank (get_price_range q) →
      p < q) := by
  refine ⟨⟨by norm_num [get_price_range], by norm_num [get_price_range],
           by norm_num [get_price_range], by norm_num [get_price_range],
           by norm_num [get_price_range]⟩, ?_, ?_⟩
  · intro p hp
    have hfl : ("free" : String) ≠ "low" := by decide
    have hfm : ("free" : String) ≠ "medium" := by decide
    have hfh : ("free" : String) ≠ "high" := by decide
    have hlf : ("low" : String) ≠ "free" := by decide
    have hlm : ("low" : String) ≠ "medium" := by decide
    have hlh : ("low" : String) ≠ "high" := by decide
    have hmf : ("medium" : String) ≠ "free" := by decide
    have hml : ("medium" : String) ≠ "low" := by decide
    have hmh : ("medium" : String) ≠ "high" := by decide
    have hhf : ("high" : String) ≠ "free" := by decide
    have hhl : ("high" : String) ≠ "low" := by decide
    have hhm : ("high" : String) ≠ "medium" := by decide
    rcases get_price_range_cases p hp with ⟨hc, he⟩ | ⟨⟨h1, h2⟩, he⟩ |
        ⟨⟨h1, h2⟩, he⟩ | ⟨h1, he⟩
    · rw [he]
      refine ⟨iff_of_true rfl hc, iff_of_false hfl ?_, iff_of_false hfm ?_,
        iff_of_false hfh ?_⟩
      · rintro ⟨hx, -⟩; rw [hc] at hx; exact lt_irrefl 0 hx
      · rintro ⟨hx, -⟩; rw [hc] at hx; norm_num at hx
      · intro hx; rw [hc] at hx; norm_num at hx
    · rw [he]
      refine ⟨iff_of_false hlf ?_, iff_of_true rfl ⟨h1, h2⟩,
        iff_of_false hlm ?_, iff_of_false hlh ?_⟩
      · intro hx; rw [hx] at h1; exact lt_irrefl 0 h1
      · rintro ⟨hx, -⟩; linarith
      · intro hx; linarith
    · rw [he]
      refine ⟨iff_of_false hmf ?_, iff_of_false hml ?_,
        iff_of_true rfl ⟨h1, h2⟩, iff_of_false hmh ?_⟩
      · intro hx; rw [hx] at h1; norm_num at h1
      · rintro ⟨-, hx⟩; linarith
      · intro hx; linarith
    · rw [he]
      refine ⟨iff_of_false hhf ?_, iff_of_false hhl ?_,
        iff_of_false hhm ?_, iff_of_true rfl h1⟩
      · intro hx; rw [hx] at h1; norm_num at h1
      · rintro ⟨-, hx⟩; linarith
      · rintro ⟨-, hx⟩; linarith
  · intro p q hp hq hlt
    rcases get_price_range_cases p hp with ⟨hc, he⟩ | ⟨⟨hc1, hc2⟩, he⟩ |
        ⟨⟨hc1, hc2⟩, he⟩ | ⟨hc1, he⟩ <;>
      rcases get_price_range_cases q hq with ⟨hd, hf⟩ | ⟨⟨hd1, hd2⟩, hf⟩ |
          ⟨⟨hd1, hd2⟩, hf⟩ | ⟨hd1, hf⟩ <;>
      rw [he, hf] at hlt <;>
      simp only [bucket_rank_free, bucket_rank_low, bucket_rank_medium,
        bucket_rank_high] at hlt <;>
      first
        | exact absurd hlt (by omega)
        | (rw [hc]; linarith)
        | linarith

/-- Witness for C7: boundary evaluations plus one concrete instance of the
ordering statement, a low-bucket price 1 against a medium-bucket price 5. -/
theorem claim_price_bucket_boundaries_witness :
    get_price_range 2.01 = "medium" ∧ (1 : ℚ) < 5 :=
  ⟨claim_price_bucket_boundaries.1.2.2.1,
   claim_price_bucket_boundaries.2.2 1 5 (by norm_num) (by norm_num)
     (by norm_num [get_price_range, bucket_rank])⟩

/-- C9: every negative price falls through all three guards of the price
bucketing function and lands in the final else branch, so it is mapped to
the bucket named high; the function is total. -/
theorem claim_negative_price_is_high (p : ℚ) (h : p < 0) :
    get_price_range p = "high" := by
  have hne : ¬ p = 0 := by linarith
  have hnl : ¬ (0 < p ∧ p ≤ 2) := by rintro ⟨hx, -⟩; linarith
  have hnm : ¬ (2 < p ∧ p ≤ 7) := by rintro ⟨hx, -⟩; linarith
  simp [get_price_range, hne, hnl, hnm]

/-- Witness for C9 at the concrete price -1. -/
theorem claim_negative_price_is_high_witness : get_price_range (-1) = "high" :=
  claim_negative_price_is_high (-1) (by norm_num)

lemma time_decay_eq_one {ev ref : ℤ} (h : ref - ev ≤ 0) :
    calculate_time_decay ev ref = 1 := by
  rw [calculate_time_decay, max_eq_left h]
  have hexp : (-(((0 : ℤ) : ℝ)) / 30) = (0 : ℝ) := by push_cast; ring
  rw [hexp, Real.rpow_zero]

lemma time_decay_eq_half {ev ref : ℤ} (h : ref - ev = 30) :
    calculate_time_decay ev ref = 1 / 2 := by
  rw [calculate_time_decay_of_nonneg (by omega), h]
  have hexp : (-(((30 : ℤ) : ℝ)) / 30) = (-1 : ℝ) := by push_cast; ring
  rw [hexp, Real.rpow_neg_one]
  norm_num

/-! ## Embedding of real_prototype/user_profiling.py -/

/-- An event record: the union of the optional fields the profiling code reads
from the raw event dictionaries.  A missing or unparseable time field is
`none`; `EventProcessor.parse_datetime` and `EventProcessor.get_event_time`
fall back to the wall clock in that case, which the embedding threads through
explicitly as `now`.  The `search_frequency` field defaults to 1 like
`int(search.get("search_frequency", 1))`. -/
structure Event where
  user_id : String := ""
  material_id : Option String := none
  categories : String := ""
  class_grades : String := ""
  price_euro : ℚ := 0
  time : Option ℤ := none
  date : Option ℤ := none
  last_search_date : Option ℤ := none
  search_keyword : String := ""
  search_frequency : ℤ := 1
  deriving DecidableEq

/-- A material record with the fields the engine reads; `created_days` and
`updated_days` are `none` when the corresponding date string is missing or
unparseable (the code then substitutes defaults relative to the clock). -/
structure Material where
  material_title : String := ""
  categories : String := ""
  class_grades : String := ""
  price : ℚ := 0
  bestseller_rating : ℚ := 0
  author_id : String := "unknown"
  created_days : Option ℤ := none
  updated_days : Option ℤ := none
  deriving DecidableEq

/-- The per-user event dictionary returned by
`DataRepository.get_user_events`, one list per event type. -/
structure UserEvents where
  purchases : List Event := []
  viewMaterial : List Event := []
  showMaterialPreview : List Event := []
  addToCart : List Event := []
  freeDownload : List Event := []
  addToFavorites : List Event := []
  searches : List Event := []
  deriving DecidableEq

/-- A user with no recorded events at all. -/
def emptyUserEvents : UserEvents := {}

/-- `EventProcessor.grade_weights` (user_profiling.py lines 114-122). -/
def grade_weight : String → ℚ
  | "purchases" => 1
  | "viewMaterial" => 0.46
  | "showMaterialPreview" => 0.32
  | "searches" => 0
  | "addToCart" => 0.20
  | "freeDownload" => 0.11
  | "addToFavorites" => 0.10
  | _ => 0

/-- `EventProcessor.subject_weights` (user_profiling.py lines 124-132). -/
def subject_weight : String → ℚ
  | "purchases" => 1
  | "viewMaterial" => 0.52
  | "showMaterialPreview" => 0.36
  | "searches" => 0.29
  | "addToCart" => 0.23
  | "freeDownload" => 0.12
  | "addToFavorites" => 0.11
  | _ => 0

/-- `EventProcessor.get_event_weight`. -/
def get_event_weight (event_type : String) (for_grade : Bool) : ℚ :=
  if for_grade then grade_weight event_type else subject_weight event_type

/-- Split a character list at every character satisfying `p`, keeping empty
pieces, like Python split with an explicit separator. -/
def splitOnPred (p : Char → Bool) : List Char → List Char → List (List Char)
  | [], acc => [acc.reverse]
  | c :: rest, acc =>
      if p c then acc.reverse :: splitOnPred p rest []
      else splitOnPred p rest (c :: acc)

/-- Python str.strip: drop leading and trailing whitespace. -/
def stripChars (s : List Char) : List Char :=
  ((s.dropWhile Char.isWhitespace).reverse.dropWhile Char.isWhitespace).reverse

/-- Python str.lower, character by character. -/
def lowerStr (s : String) : String :=
  String.mk (s.toList.map Char.toLower)

/-- Python s.split(sep) for a one-character separator, as a `String` list. -/
def splitOnCharStr (sep : Char) (s : String) : List String :=
  (splitOnPred (fun c => c == sep) s.toList []).map String.mk

/-- `EventProcessor.extract_categories`: split a comma-separated label string
and strip each piece; empty or Unknown gives no labels. -/
def extract_categories (categories_str : String) : List String :=
  if categories_str = "" ∨ categories_str = "Unknown" then []
  else (splitOnCharStr ',' categories_str).map (fun c => String.mk (stripChars c.toList))

/-- `EventProcessor.extract_grades`: identical body for the grade dimension. -/
def extract_grades (grades_str : String) : List String :=
  if grades_str = "" ∨ grades_str = "Unknown" then []
  else (splitOnCharStr ',' grades_str).map (fun g => String.mk (stripChars g.toList))

/-- `EventProcessor.get_event_time` with the parse step folded in: first of
the time, date and last-search-date fields, with the wall clock as the final
fallback. -/
def get_event_time (now : ℤ) (e : Event) : ℤ :=
  (e.time <|> e.date <|> e.last_search_date).getD now

/-- Python substring membership test, `needle in haystack`. -/
def str_contains (haystack needle : String) : Bool :=
  (haystack.toList.tails).any (fun t => t.take needle.length == needle.toList)

/-- Add `v` to key `k` of a Counter: an existing key accumulates in place, a
new key is appended, matching Python Counter insertion order. -/
noncomputable def counterAdd : List (String × ℝ) → String → ℝ → List (String × ℝ)
  | [], k, v => [(k, v)]
  | (k0, v0) :: rest, k, v =>
      if k0 = k then (k0, v0 + v) :: rest else (k0, v0) :: counterAdd rest k v

/-- `Counter.update`: fold the right counter into the left one. -/
noncomputable def counterMerge (a b : List (String × ℝ)) : List (String × ℝ) :=
  b.foldl (fun acc kv => counterAdd acc kv.1 kv.2) a

/-- Boolean comparison on the reals, used where Python compares floats. -/
noncomputable def rleb (a b : ℝ) : Bool := @decide (a ≤ b) (Classical.propDecidable _)

/-- `Counter.most_common(n)`: entries sorted by count descending — Python
sorting is stable, so ties keep insertion order — truncated to `n`. -/
noncomputable def most_common (c : List (String × ℝ)) (n : ℕ) : List (String × ℝ) :=
  (c.mergeSort (fun a b => rleb b.2 a.2)).take n

/-- Python `max(items, key=value)`: the first entry with the maximal value
wins, later entries replace the current best only when strictly greater. -/
noncomputable def counter_argmax (c : List (String × ℝ)) (dflt : String) : String :=
  match c with
  | [] => dflt
  | h :: t => (t.foldl (fun best kv => if rleb kv.2 best.2 then best else kv) h).1

/-- `PriceAnalyzer.analyze_price_preferences` (user_profiling.py lines
236-255).  Each purchase adds, to its price bucket, the time decay of its
time or date field; a purchase with neither field counts as 1.  Note the
reference time of this decay is the wall clock `now`: the source calls
`EventProcessor().calculate_time_decay(time_str)` without a reference
argument.  The bucket counts are then normalised by their sum (1 if zero). -/
noncomputable def analyze_price_preferences (purchases : List Event) (now : ℤ) :
    List (String × ℝ) :=
  let counter := purchases.foldl (fun acc purchase =>
    let price_range := get_price_range purchase.price_euro
    match purchase.time <|> purchase.date with
    | some t => counterAdd acc price_range (calculate_time_decay t now)
    | none => counterAdd acc price_range 1) []
  let total0 := (counter.map (fun kv => kv.2)).sum
  let total := if total0 = 0 then 1 else total0
  counter.map (fun kv => (kv.1, kv.2 / total))

/-- `SearchAnalyzer.extract_search_insights` (user_profiling.py lines
265-293).  For each search, the lowercased keyword is substring-matched
against every catalog label; matches accumulate
`weight * time_decay * frequency` (grades at half weight).  The decay is
again computed against the wall clock `now`, not the profile reference
time. -/
noncomputable def extract_search_insights (searches : List Event) (weight : ℚ)
    (materials : List (String × Material)) (now : ℤ) :
    List (String × ℝ) × List (String × ℝ) :=
  searches.foldl (fun acc search =>
    let query := lowerStr search.search_keyword
    let weighted : ℝ := (weight : ℝ) *
      calculate_time_decay ((search.last_search_date).getD now) now *
      (search.search_frequency : ℝ)
    materials.foldl (fun acc2 m =>
      let cats := (extract_categories m.2.categories).foldl
        (fun c cat => if str_contains query (lowerStr cat) then counterAdd c cat weighted else c)
        acc2.1
      let grs := (extract_grades m.2.class_grades).foldl
        (fun c g => if str_contains query (lowerStr g) then counterAdd c g (weighted * 0.5) else c)
        acc2.2
      (cats, grs)) acc) ([], [])

/-- `UserProfiler.process_material_based_events` (user_profiling.py lines
320-358): events carrying a material id contribute the event-type weight
times the decay against the profile reference time, to every category and
grade label of the material (or of the event itself when the material is not
in the catalog). -/
noncomputable def process_material_based_events (events : List Event)
    (event_type : String) (reference_time : ℤ)
    (materials : List (String × Material)) (now : ℤ) :
    List (String × ℝ) × List (String × ℝ) :=
  events.foldl (fun acc event =>
    match event.material_id with
    | none => acc
    | some mid =>
      if mid = "" then acc
      else
        let fields := match materials.lookup mid with
          | some m => (m.categories, m.class_grades)
          | none => (event.categories, event.class_grades)
        let time_decay := calculate_time_decay (get_event_time now event) reference_time
        let cat_weight := (get_event_weight event_type false : ℝ) * time_decay
        let cats := (extract_categories fields.1).foldl
          (fun c cat => counterAdd c cat cat_weight) acc.1
        let grade_w := (get_event_weight event_type true : ℝ) * time_decay
        let grs := (extract_grades fields.2).foldl
          (fun c g => counterAdd c g grade_w) acc.2
        (cats, grs)) ([], [])

/-- `UserProfiler.get_reference_time`: the most recent event time across the
user's history, the wall clock if there are no events (or for events whose
time fields are all missing). -/
def get_reference_time (ue : UserEvents) (now : ℤ) : ℤ :=
  let all := ue.purchases ++ ue.viewMaterial ++ ue.showMaterialPreview ++
    ue.addToCart ++ ue.freeDownload ++ ue.addToFavorites ++ ue.searches
  match all.map (fun e => get_event_time now e) with
  | [] => now
  | h :: t => t.foldl max h

/-- The profile dictionary built by `UserProfiler.create_user_profile`. -/
structure UserProfile where
  user_id : String
  preferred_categories : List String
  preferred_grades : List String
  price_preference : String
  category_weights : List (String × ℝ)
  grade_weights : List (String × ℝ)
  price_range_weights : List (String × ℝ)
  event_counts : List (String × ℕ)
  profile_generation_time : ℤ

/-- `UserProfiler.create_user_profile` (user_profiling.py lines 360-420).
Event types are processed in the explicit priority order; searches get the
special keyword treatment.  The wall clock `now` is an explicit argument:
the source reaches it through `datetime.datetime.now()` inside the search
and price decay calls and as the parse fallback. -/
noncomputable def create_user_profile (user_id : String) (user_events : UserEvents)
    (materials : List (String × Material)) (now : ℤ) : UserProfile :=
  let reference_time := get_reference_time user_events now
  let c1 := process_material_based_events user_events.purchases "purchases"
    reference_time materials now
  let c2 := process_material_based_events user_events.viewMaterial "viewMaterial"
    reference_time materials now
  let c3 := process_material_based_events user_events.showMaterialPreview
    "showMaterialPreview" reference_time materials now
  let c4 := process_material_based_events user_events.addToCart "addToCart"
    reference_time materials now
  let c5 := extract_search_insights user_events.searches
    (get_event_weight "searches" false) materials now
  let c6 := process_material_based_events user_events.freeDownload "freeDownload"
    reference_time materials now
  let c7 := process_material_based_events user_events.addToFavorites
    "addToFavorites" reference_time materials now
  let all_categories := counterMerge (counterMerge (counterMerge (counterMerge
    (counterMerge (counterMerge (counterMerge [] c1.1) c2.1) c3.1) c4.1) c5.1)
    c6.1) c7.1
  let all_grades := counterMerge (counterMerge (counterMerge (counterMerge
    (counterMerge (counterMerge (counterMerge [] c1.2) c2.2) c3.2) c4.2) c5.2)
    c6.2) c7.2
  let price_preferences := analyze_price_preferences user_events.purchases now
  { user_id := user_id
    preferred_categories := (most_common all_categories 3).map (fun kv => kv.1)
    preferred_grades := (most_common all_grades 3).map (fun kv => kv.1)
    price_preference := counter_argmax price_preferences "medium"
    category_weights := all_categories
    grade_weights := all_grades
    price_range_weights := price_preferences
    event_counts :=
      [("purchases", user_events.purchases.length),
       ("viewMaterial", user_events.viewMaterial.length),
       ("showMaterialPreview", user_events.showMaterialPreview.length),
       ("addToCart", user_events.addToCart.length),
       ("freeDownload", user_events.freeDownload.length),
       ("addToFavorites", user_events.addToFavorites.length),
       ("searches", user_events.searches.length)]
    profile_generation_time := now }

/-- C8: a user with no events at all gets a well-formed profile with empty
category and grade affinity mappings and no top category or grade: the
preferred-category and preferred-grade lists are empty, so callers can
detect cold start.  `create_user_profile` is total, so profile construction
cannot fail on such a user. -/
theorem claim_cold_start_profile (user_id : String)
    (materials : List (String × Material)) (now : ℤ) :
    (create_user_profile user_id emptyUserEvents materials now).category_weights = [] ∧
    (create_user_profile user_id emptyUserEvents materials now).grade_weights = [] ∧
    (create_user_profile user_id emptyUserEvents materials now).preferred_categories = [] ∧
    (create_user_profile user_id emptyUserEvents materials now).preferred_grades = [] := by
  refine ⟨rfl, rfl, ?_, ?_⟩ <;>
    simp [create_user_profile, emptyUserEvents, process_material_based_events,
      extract_search_insights, counterMerge, most_common]

/-- A user history with one search event for the keyword math, dated day
1000, and nothing else (the C3 failing input). -/
def c3_events : UserEvents :=
  { searches := [{ last_search_date := some 1000, search_keyword := "math" }] }

/-- A one-material catalog whose material carries the category label Math
(the C3 failing input). -/
def c3_materials : List (String × Material) :=
  [("m1", { categories := "Math" })]

/-- C3 fails on the code: the category affinity mapping depends on the wall
clock.  The search-derived contribution is weighted by
`calculate_time_decay(last_search_date)` with no reference argument, so the
decay is taken against `datetime.datetime.now()`.  For a user whose only
event is a search for math on day 1000, building the profile with the clock
at day 1000 gives the Math affinity 0.29, and building it again with the
clock at day 1030 gives 0.145: the two affinity mappings differ even though
the event input is identical and the profile reference time (day 1000,
derived from the events) is unchanged. -/
theorem claim_profile_wall_clock_dependence :
    (create_user_profile "u1" c3_events c3_materials 1000).category_weights =
      [("Math", (29 / 100 : ℝ))] ∧
    (create_user_profile "u1" c3_events c3_materials 1030).category_weights =
      [("Math", (29 / 200 : ℝ))] ∧
    (create_user_profile "u1" c3_events c3_materials 1000).category_weights ≠
      (create_user_profile "u1" c3_events c3_materials 1030).category_weights := by
  have h1 : (create_user_profile "u1" c3_events c3_materials 1000).category_weights =
      [("Math", ((0.29 : ℚ) : ℝ) * calculate_time_decay 1000 1000 * ((1 : ℤ) : ℝ))] := rfl
  have h2 : (create_user_profile "u1" c3_events c3_materials 1030).category_weights =
      [("Math", ((0.29 : ℚ) : ℝ) * calculate_time_decay 1000 1030 * ((1 : ℤ) : ℝ))] := rfl
  rw [h1, h2, time_decay_eq_one (by omega), time_decay_eq_half (by omega)]
  norm_num

/-! ## Embedding of real_prototype/recommendation.py

The scores computed by this layer are exact rationals standing for the float
arithmetic of the source.  The profile consumed by `recommend_materials` is
the dictionary produced by `UserProfiler.create_user_profile`; the
recommender reads its user id, preferred category and grade lists, the two
affinity-weight dictionaries and the price preference, so the embedded
profile type carries exactly those fields (with the weights as rationals in
this exact-arithmetic layer).  The `random.random()` stream is modelled as an
explicit function from the call index to a rational, and the wall clock of
`datetime.datetime.now()` as an explicit day number `now`. -/

/-- The profile fields read by `MaterialRecommender.recommend_materials` and
`MaterialRecommender._score_material_for_user`, with the dictionary defaults
of the `user_profile.get(...)` calls. -/
structure RecProfile where
  user_id : String := ""
  preferred_categories : List String := []
  preferred_grades : List String := []
  price_preference : String := "medium"
  category_weights : List (String × ℚ) := []
  grade_weights : List (String × ℚ) := []
  deriving DecidableEq

/-- Python dict.get(k, 0) on a weight dictionary. -/
def lookupQ (l : List (String × ℚ)) (k : String) : ℚ := (l.lookup k).getD 0

/-- Python str.split() with no argument: split on whitespace and drop the
empty pieces. -/
def split_words (s : String) : List (List Char) :=
  (splitOnPred Char.isWhitespace s.toList []).filter (fun w => !w.isEmpty)

/-- Two category labels are related when their lowercased word sets
intersect, the heuristic of
`MaterialRecommender._build_category_relationships` (recommendation.py lines
46-74). -/
def share_word (a b : String) : Bool :=
  (split_words (lowerStr a)).any (fun w => (split_words (lowerStr b)).contains w)

/-- All category labels occurring in the catalog (the iteration base of
`_build_category_relationships`; only membership in the resulting
relationship lists is ever used, so duplicates are harmless). -/
def all_category_labels (materials : List (String × Material)) : List String :=
  materials.foldl (fun acc m => acc ++ extract_categories m.2.categories) []

/-- The related-category list for a label: every other catalog label sharing
a word with it, as built by `_build_category_relationships`. -/
def related_categories (materials : List (String × Material)) (category : String) :
    List String :=
  (all_category_labels materials).filter
    (fun other => (other != category) && share_word category other)

/-- `MaterialRecommender._is_price_adjacent` (recommendation.py lines
136-149): two distinct buckets at distance one in the fixed order; an unknown
bucket name (the ValueError branch) is adjacent to nothing. -/
def is_price_adjacent (price_range preferred_range : String) : Bool :=
  let range_order := ["free", "low", "medium", "high"]
  if price_range = preferred_range then false
  else
    match range_order.indexOf? price_range, range_order.indexOf? preferred_range with
    | some i, some j => ((i : ℤ) - (j : ℤ)).natAbs == 1
    | _, _ => false

/-- `MaterialRecommender._score_material_for_user` (recommendation.py lines
162-239): rank-weighted overlap with the preferred lists plus a normalised
affinity bonus for the category and grade dimensions (related categories at a
flat 0.3), capped at 1; the three-level price match; 0 for any other score
type. -/
def score_material_for_user (materials : List (String × Material))
    (material : Material) (user_profile : RecProfile) (score_type : String) : ℚ :=
  if score_type = "category" then
    let material_categories := extract_categories material.categories
    let preferred_categories := user_profile.preferred_categories
    let category_weights := user_profile.category_weights
    let score := material_categories.foldl (fun s category =>
      if category ∈ preferred_categories then
        let rank := preferred_categories.indexOf category
        s + 1 / ((rank : ℚ) + 1) + lookupQ category_weights category / 100
      else if preferred_categories.any
          (fun pref => (related_categories materials pref).contains category) then
        s + 0.3
      else s) 0
    min 1 score
  else if score_type = "grade" then
    let material_grades := extract_grades material.class_grades
    let preferred_grades := user_profile.preferred_grades
    let grade_weights := user_profile.grade_weights
    let score := material_grades.foldl (fun s grade =>
      if grade ∈ preferred_grades then
        let rank := preferred_grades.indexOf grade
        s + 1 / ((rank : ℚ) + 1) + lookupQ grade_weights grade / 100
      else s) 0
    min 1 score
  else if score_type = "price" then
    let price_range := get_price_range material.price
    let preferred_range := user_profile.price_preference
    if price_range = preferred_range then 1
    else if is_price_adjacent price_range preferred_range then 0.5
    else 0.2
  else 0

/-- Freshness configuration of `MaterialRecommender.config` (recent under 90
days 1.5, standard under 365 days 1.0, older 0.7). -/
def config_freshness_recent : ℚ := 1.5

def config_freshness_standard : ℚ := 1.0

def config_freshness_older : ℚ := 0.7

/-- The configured author cap, `config.max_per_author` (recommendation.py
line 39, increased from 2 to 4 by the comment there). -/
def config_max_per_author : ℕ := 4

/-- `MaterialRecommender._get_freshness_score` (recommendation.py lines
103-134): age in days of the most recent of the creation and update dates
relative to the wall clock, unparseable creation dates defaulting to one year
old and unparseable update dates to the creation date. -/
def get_freshness_score (material : Material) (now : ℤ) : ℚ :=
  let created_at := material.created_days.getD (now - 365)
  let updated_at := material.updated_days.getD created_at
  let age_days := now - max created_at updated_at
  if age_days < 90 then config_freshness_recent
  else if age_days < 365 then config_freshness_standard
  else config_freshness_older

/-- `MaterialRecommender._get_user_interactions` (recommendation.py lines
88-101): the ids of the materials the user has purchased or downloaded
(events with a missing or empty material id contribute nothing).  The source
builds a set; only membership is ever used, so a list in event order is an
equivalent model. -/
def get_user_interactions (ue : UserEvents) : List String :=
  (ue.purchases ++ ue.freeDownload).foldl (fun acc e =>
    match e.material_id with
    | some mid => if mid = "" then acc else acc ++ [mid]
    | none => acc) []

/-- A scored candidate as assembled inside
`MaterialRecommender.recommend_materials`. -/
structure ScoredItem where
  material_id : String := ""
  material : Material := {}
  score : ℚ := 0
  category_score : ℚ := 0
  grade_score : ℚ := 0
  price_score : ℚ := 0
  freshness_factor : ℚ := 0
  bestseller_score : ℚ := 0
  is_fallback : Bool := false
  deriving DecidableEq

/-- Bump the count of an author in the per-author tally
(`defaultdict(int)` semantics). -/
def bumpCount : List (String × ℕ) → String → List (String × ℕ)
  | [], k => [(k, 1)]
  | (k0, v) :: rest, k =>
      if k0 = k then (k0, v + 1) :: rest else (k0, v) :: bumpCount rest k

/-- `MaterialRecommender._filter_by_author_diversity` (recommendation.py
lines 241-266): walk the list in order and keep an item only while its author
has fewer than `max_per_author` items kept so far.  This method is defined by
the recommender but `recommend_materials` never invokes it. -/
def filter_by_author_diversity (materials_list : List ScoredItem)
    (max_per_author : ℕ := 2) : List ScoredItem :=
  (materials_list.foldl (fun (acc : List ScoredItem × List (String × ℕ)) material =>
    let author_id := material.material.author_id
    if (acc.2.lookup author_id).getD 0 < max_per_author then
      (acc.1 ++ [material], bumpCount acc.2 author_id)
    else acc) ([], [])).1

/-- The candidate set: the catalog minus the materials the user has already
purchased or downloaded (recommendation.py lines 290-300). -/
def candidate_materials (materials : List (String × Material)) (ue : UserEvents) :
    List (String × Material) :=
  materials.filter (fun p => decide (p.1 ∉ get_user_interactions ue))

/-- The key-data guard of the scoring loop: materials with a falsy categories
or class-grades field are skipped (recommendation.py lines 309-311). -/
def has_key_data (p : String × Material) : Bool :=
  decide (p.2.categories ≠ "" ∧ p.2.class_grades ≠ "")

/-- One iteration of the scoring loop (recommendation.py lines 308-350): the
three profile scores, the freshness multiplier, the normalised bestseller
score, the weighted combination and the diversity randomness, producing a
non-fallback scored item.  The first component of the argument is the index
of this item in the scored sequence, used to address the randomness
stream. -/
def make_scored_item (materials : List (String × Material))
    (user_profile : RecProfile) (diversity_factor : ℚ) (now : ℤ)
    (rand : ℕ → ℚ) (ip : ℕ × (String × Material)) : ScoredItem :=
  let material := ip.2.2
  let category_score := score_material_for_user materials material user_profile "category"
  let grade_score := score_material_for_user materials material user_profile "grade"
  let price_score := score_material_for_user materials material user_profile "price"
  let freshness_factor := get_freshness_score material now
  let bestseller_score := min 1 (material.bestseller_rating / 1000)
  let combined_score :=
    (category_score * 0.35 + grade_score * 0.25 + price_score * 0.15 +
      bestseller_score * 0.15) * freshness_factor
  let randomness := rand ip.1 * diversity_factor
  { material_id := ip.2.1
    material := material
    score := combined_score * (1 - diversity_factor) + randomness
    category_score := category_score
    grade_score := grade_score
    price_score := price_score
    freshness_factor := freshness_factor
    bestseller_score := bestseller_score
    is_fallback := false }

/-- The scored candidate list: every candidate passing the key-data guard,
scored in catalog order. -/
def scored_materials (materials : List (String × Material))
    (user_profile : RecProfile) (ue : UserEvents) (diversity_factor : ℚ)
    (now : ℤ) (rand : ℕ → ℚ) : List ScoredItem :=
  ((candidate_materials materials ue).filter has_key_data).enum.map
    (make_scored_item materials user_profile diversity_factor now rand)

/-- The descending stable sort key of the pipeline: Python
`sorted(key=score, reverse=True)` keeps `a` before `b` whenever the score of
`b` does not exceed the score of `a`. -/
def score_desc (a b : ScoredItem) : Bool := decide (b.score ≤ a.score)

/-- One fallback item (recommendation.py lines 360-388): pure bestseller
score times freshness, zero component scores, flagged as fallback. -/
def make_fallback_item (now : ℤ) (p : String × Material) : ScoredItem :=
  let freshness_factor := get_freshness_score p.2 now
  let bestseller_score := min 1 (p.2.bestseller_rating / 1000)
  { material_id := p.1
    material := p.2
    score := bestseller_score * freshness_factor
    category_score := 0
    grade_score := 0
    price_score := 0
    freshness_factor := freshness_factor
    bestseller_score := bestseller_score
    is_fallback := true }

/-- The fallback pool: candidates that were not scored (their id is not among
the used ids) and have a truthy bestseller rating. -/
def fallback_items (materials : List (String × Material)) (ue : UserEvents)
    (now : ℤ) (used : List String) : List ScoredItem :=
  ((candidate_materials materials ue).filter
    (fun p => decide (p.1 ∉ used ∧ p.2.bestseller_rating ≠ 0))).map
    (make_fallback_item now)

/-- The per-item factor record of a formatted recommendation. -/
structure RecommendationFactors where
  category_match : ℚ
  grade_match : ℚ
  price_match : ℚ
  freshness : ℚ
  popularity : ℚ
  deriving DecidableEq

/-- A formatted recommendation record (recommendation.py lines 399-421). -/
structure Recommendation where
  material_id : String
  title : String
  price : ℚ
  categories : String
  class_grades : String
  author_id : String
  score : ℚ
  is_fallback : Bool
  recommendation_factors : RecommendationFactors
  deriving DecidableEq

/-- Formatting of one selected item into the returned record. -/
def format_rec (item : ScoredItem) : Recommendation :=
  { material_id := item.material_id
    title := item.material.material_title
    price := item.material.price
    categories := item.material.categories
    class_grades := item.material.class_grades
    author_id := item.material.author_id
    score := item.score
    is_fallback := item.is_fallback
    recommendation_factors :=
      { category_match := item.category_score
        grade_match := item.grade_score
        price_match := item.price_score
        freshness := item.freshness_factor
        popularity := item.bestseller_score } }

/-- `MaterialRecommender.recommend_materials` (recommendation.py lines
268-423): empty result for a profile without a user id or an empty candidate
set; otherwise score and sort the candidates, pad with at most `limit * 2`
popularity-ranked fallback items when fewer than `limit` candidates were
scored, truncate to `limit` and format. -/
def recommend_materials (user_profile : RecProfile) (ue : UserEvents)
    (materials : List (String × Material)) (limit : ℕ) (diversity_factor : ℚ)
    (now : ℤ) (rand : ℕ → ℚ) : List Recommendation :=
  if user_profile.user_id = "" then []
  else if candidate_materials materials ue = [] then []
  else
    let sorted := (scored_materials materials user_profile ue diversity_factor
      now rand).mergeSort score_desc
    let pooled :=
      if sorted.length < limit then
        sorted ++ ((fallback_items materials ue now
          (sorted.map (fun item => item.material_id))).mergeSort score_desc).take
          (limit * 2)
      else sorted
    (pooled.take (min limit pooled.length)).map format_rec

/-! ## Generic list lemmas used by the pipeline proofs -/

lemma enumFrom_map_proj {α β : Type} (f : ℕ × α → β) (g : α → β)
    (hfg : ∀ i a, f (i, a) = g a) :
    ∀ (n : ℕ) (l : List α), (List.enumFrom n l).map f = l.map g
  | _, [] => rfl
  | n, a :: t => by
      simp only [List.enumFrom, List.map_cons, hfg]
      rw [enumFrom_map_proj f g hfg]

lemma length_le_filter_add_filter {α : Type} (P Q : α → Bool) :
    ∀ l : List α, (∀ x ∈ l, P x = true ∨ Q x = true) →
      l.length ≤ (l.filter P).length + (l.filter Q).length
  | [], _ => by simp
  | a :: t, h => by
      have ht := length_le_filter_add_filter P Q t
        (fun x hx => h x (List.mem_cons_of_mem a hx))
      by_cases hp : P a = true
      · rw [List.filter_cons_of_pos hp]
        have hq2 : (t.filter Q).length ≤ ((a :: t).filter Q).length := by
          by_cases hq : Q a = true
          · rw [List.filter_cons_of_pos hq]; simp
          · rw [List.filter_cons_of_neg (by simpa using hq)]
        simp only [List.length_cons]
        omega
      · have hq : Q a = true := (h a (List.mem_cons_self a t)).resolve_left hp
        rw [List.filter_cons_of_neg (by simpa using hp), List.filter_cons_of_pos hq]
        simp only [List.length_cons]
        omega

lemma eq_of_fst_eq_of_nodup_keys {α β : Type} :
    ∀ {l : List (β × α)}, (l.map Prod.fst).Nodup →
      ∀ {x y : β × α}, x ∈ l → y ∈ l → x.1 = y.1 → x = y := by
  intro l
  induction l with
  | nil => intro _ x y hx; cases hx
  | cons a t ih =>
    intro h x y hx hy hfst
    rw [List.map_cons, List.nodup_cons] at h
    rcases List.mem_cons.mp hx with rfl | hx2
    · rcases List.mem_cons.mp hy with rfl | hy2
      · rfl
      · exfalso; apply h.1; rw [hfst]; exact List.mem_map_of_mem Prod.fst hy2
    · rcases List.mem_cons.mp hy with rfl | hy2
      · exfalso; apply h.1; rw [← hfst]; exact List.mem_map_of_mem Prod.fst hx2
      · exact ih h.2 hx2 hy2 hfst

/-- The scored list projects onto the key-data-bearing candidates. -/
lemma scored_materials_map_id (materials : List (String × Material))
    (user_profile : RecProfile) (ue : UserEvents) (dv : ℚ) (now : ℤ)
    (rand : ℕ → ℚ) :
    (scored_materials materials user_profile ue dv now rand).map
      (fun item => item.material_id) =
    ((candidate_materials materials ue).filter has_key_data).map Prod.fst := by
  rw [scored_materials, List.map_map, List.enum_eq_enumFrom]
  exact enumFrom_map_proj _ _ (fun i a => rfl) 0 _

/-- The scored list projects onto the candidate materials themselves. -/
lemma scored_materials_map_material (materials : List (String × Material))
    (user_profile : RecProfile) (ue : UserEvents) (dv : ℚ) (now : ℤ)
    (rand : ℕ → ℚ) :
    (scored_materials materials user_profile ue dv now rand).map
      (fun item => item.material) =
    ((candidate_materials materials ue).filter has_key_data).map
      (fun p => p.2) := by
  rw [scored_materials, List.map_map, List.enum_eq_enumFrom]
  exact enumFrom_map_proj _ _ (fun i a => rfl) 0 _

/-- The fallback list projects onto the candidates it was built from. -/
lemma fallback_items_map_id (materials : List (String × Material))
    (ue : UserEvents) (now : ℤ) (used : List String) :
    (fallback_items materials ue now used).map (fun item => item.material_id) =
    ((candidate_materials materials ue).filter
      (fun p => decide (p.1 ∉ used ∧ p.2.bestseller_rating ≠ 0))).map Prod.fst := by
  rw [fallback_items, List.map_map]
  rfl

/-- C1 as amended: the engine returns exactly `limit` items whenever the
profile has a user id, the catalog keys are distinct, `limit ≥ 1`, at least
`limit` candidates (catalog minus purchased/downloaded) exist, and every
candidate belongs to one of the two pools: it carries category and grade
data (primary pool) or a nonzero bestseller rating (fallback pool).  The
original claim, quantified over all eligible materials, fails because a
candidate with neither key data nor a bestseller rating is silently dropped
from both pools. -/
theorem claim_exact_limit_amended (user_profile : RecProfile) (ue : UserEvents)
    (materials : List (String × Material)) (limit : ℕ) (dv : ℚ) (now : ℤ)
    (rand : ℕ → ℚ)
    (huser : user_profile.user_id ≠ "")
    (hnodup : (materials.map Prod.fst).Nodup)
    (hlim : 1 ≤ limit)
    (hcover : ∀ p ∈ candidate_materials materials ue,
      has_key_data p = true ∨ p.2.bestseller_rating ≠ 0)
    (hcount : limit ≤ (candidate_materials materials ue).length) :
    (recommend_materials user_profile ue materials limit dv now rand).length =
      limit := by
  have hne : ¬ candidate_materials materials ue = [] := by
    intro h0
    rw [h0] at hcount
    simp at hcount
    omega
  have hcands_nodup : ((candidate_materials materials ue).map Prod.fst).Nodup := by
    rw [candidate_materials]
    exact List.Nodup.sublist ((List.filter_sublist materials).map Prod.fst) hnodup
  simp only [recommend_materials]
  rw [if_neg huser, if_neg hne]
  set scored := scored_materials materials user_profile ue dv now rand with hscored
  set sorted := scored.mergeSort score_desc with hsorted
  set used := sorted.map (fun item => item.material_id) with hused
  have hs_len : sorted.length =
      ((candidate_materials materials ue).filter has_key_data).length := by
    rw [hsorted, List.length_mergeSort, hscored, scored_materials,
      List.length_map, List.enum_length]
  have hfb : (fallback_items materials ue now used).length =
      ((candidate_materials materials ue).filter
        (fun p => decide (p.1 ∉ used ∧ p.2.bestseller_rating ≠ 0))).length := by
    rw [fallback_items, List.length_map]
  have hcover2 : ∀ p ∈ candidate_materials materials ue, has_key_data p = true ∨
      (fun p : String × Material =>
        decide (p.1 ∉ used ∧ p.2.bestseller_rating ≠ 0)) p = true := by
    intro p hp
    by_cases hk : has_key_data p = true
    · exact Or.inl hk
    · rcases hcover p hp with h1 | h1
      · exact Or.inl h1
      · right
        rw [decide_eq_true_eq]
        refine ⟨?_, h1⟩
        intro hmem
        rw [hused] at hmem
        have hperm := (List.mergeSort_perm scored score_desc).map
          (fun item : ScoredItem => item.material_id)
        have hmem2 : p.1 ∈ scored.map (fun item => item.material_id) :=
          hperm.mem_iff.mp hmem
        rw [hscored, scored_materials_map_id] at hmem2
        rcases List.mem_map.mp hmem2 with ⟨q, hq, hq1⟩
        have hq_c : q ∈ candidate_materials materials ue :=
          (List.mem_filter.mp hq).1
        have hqk : has_key_data q = true := (List.mem_filter.mp hq).2
        have hqp : q = p := eq_of_fst_eq_of_nodup_keys hcands_nodup hq_c hp hq1
        rw [hqp] at hqk
        exact hk hqk
  have hineq := length_le_filter_add_filter has_key_data
    (fun p : String × Material => decide (p.1 ∉ used ∧ p.2.bestseller_rating ≠ 0))
    (candidate_materials materials ue) hcover2
  have hpool : limit ≤ (if sorted.length < limit then
      sorted ++ ((fallback_items materials ue now used).mergeSort score_desc).take
        (limit * 2)
      else sorted).length := by
    by_cases hcase : sorted.length < limit
    · rw [if_pos hcase, List.length_append, List.length_take]
      have hfb2 : ((fallback_items materials ue now used).mergeSort
          score_desc).length =
          ((candidate_materials materials ue).filter
            (fun p => decide (p.1 ∉ used ∧ p.2.bestseller_rating ≠ 0))).length := by
        rw [List.length_mergeSort, hfb]
      omega
    · rw [if_neg hcase]
      omega
  rw [List.length_map, List.length_take, min_assoc, min_self]
  exact min_eq_left hpool

/-- A one-material catalog whose material has no categories, no class grades
and no bestseller rating: eligible in the sense of the claim (not purchased
or downloaded), but invisible to both pools. -/
def c1_materials : List (String × Material) := [("m1", {})]

/-- A one-material catalog whose material is scorable. -/
def c1_good_materials : List (String × Material) :=
  [("m1", { categories := "Math", class_grades := "1", bestseller_rating := 500 })]

/-- C1 as stated is false: with one eligible material (never purchased or
downloaded) and limit 1, the engine returns an empty list when the material
lacks category and grade data and a bestseller rating, because it enters
neither the primary nor the fallback pool; and a profile whose user id is
empty also produces an empty list over a perfectly scorable catalog. -/
theorem claim_exact_limit_counterexample :
    (candidate_materials c1_materials emptyUserEvents).length = 1 ∧
    recommend_materials { user_id := "u1" } emptyUserEvents c1_materials 1 0 1000
      (fun _ => 0) = [] ∧
    (candidate_materials c1_good_materials emptyUserEvents).length = 1 ∧
    recommend_materials {} emptyUserEvents c1_good_materials 1 0 1000
      (fun _ => 0) = [] := by
  have hint : get_user_interactions emptyUserEvents = [] := rfl
  refine ⟨?_, ?_, ?_, ?_⟩
  · simp [candidate_materials, hint, c1_materials]
  · simp [recommend_materials, candidate_materials, hint, c1_materials,
      scored_materials, has_key_data, fallback_items]
  · simp [candidate_materials, hint, c1_good_materials]
  · simp [recommend_materials]

/-- Witness catalog for the amended C1: one primary-pool material and one
fallback-pool material. -/
def c1w_materials : List (String × Material) :=
  [("m1", { categories := "Math", class_grades := "1" }),
   ("m2", { bestseller_rating := 500 })]

/-- Witness for the amended C1: with two candidates, one scorable and one
carrying a bestseller rating, the engine returns exactly two items. -/
theorem claim_exact_limit_amended_witness :
    (recommend_materials { user_id := "u1" } emptyUserEvents c1w_materials 2 0
      1000 (fun _ => 0)).length = 2 := by
  have hint : get_user_interactions emptyUserEvents = [] := rfl
  have hcand : candidate_materials c1w_materials emptyUserEvents = c1w_materials := by
    simp [candidate_materials, hint]
  refine claim_exact_limit_amended _ _ _ _ _ _ _ (by simp) ?_ (by norm_num) ?_ ?_
  · simp [c1w_materials]
  · rw [hcand]
    intro p hp
    rw [c1w_materials] at hp
    rcases List.mem_cons.mp hp with rfl | hp2
    · exact Or.inl (by simp [has_key_data])
    · rcases List.mem_cons.mp hp2 with rfl | hp3
      · exact Or.inr (by norm_num)
      · cases hp3
  · rw [hcand]
    simp [c1w_materials]

/-! ## Embedding of content_based_filtering/personalization_algorithm.py

Only the parts the claims touch are embedded: the known-material filter, the
dispatch of `ContentBasedRecommender.get_recommendations` and the popularity
baseline `_get_popularity_based_recommendations`.  The four scoring passes
(`_score_by_liked_materials`, `_score_by_preference_vector`,
`_score_by_categorical_preferences`, `_boost_seasonal_materials`) populate
the `material_scores` dictionary from TF-IDF vectors produced by an external
library (sklearn) in floating point; the embedding therefore takes the
populated score dictionary as an explicit argument and the theorems quantify
over every possible score dictionary, which covers whatever the scoring
passes produce. -/

namespace ContentBased

/-- A material of the enhanced catalog, restricted to the fields the
recommendation records read. -/
structure CBMaterial where
  title : String := ""
  category : String := ""
  class_grade : String := ""
  price : ℚ := 0
  bestseller_rating : ℚ := 0
  deriving DecidableEq

/-- The per-user content preferences assembled by
`UserProfileAnalyzer._extract_material_preferences`: purchased and favorited
materials as liked, bounced and cart-removed materials as disliked (the
other preference fields feed only the score dictionary, which is an
argument here). -/
structure UserPrefs where
  liked_material_ids : List String := []
  disliked_material_ids : List String := []
  deriving DecidableEq

/-- A score-dictionary entry; only the total score is read by the
recommendation assembly (the contribution factors feed only the optional
explanation text, which is not modelled). -/
structure CBScore where
  total_score : ℚ := 0
  deriving DecidableEq

/-- A content-based recommendation record (personalization_algorithm.py
lines 489-505, without the optional explanation text). -/
structure CBRecommendation where
  material_id : String
  title : String
  category : String
  class_grade : String
  price : ℚ
  bestseller_rating : ℚ
  score : ℚ
  deriving DecidableEq

/-- `ContentBasedRecommender._filter_known_materials` (lines 723-737): drop
every score entry whose material the user has liked or disliked. -/
def filter_known_materials (user_prefs : UserPrefs)
    (material_scores : List (String × CBScore)) : List (String × CBScore) :=
  material_scores.filter (fun kv =>
    decide (kv.1 ∉ user_prefs.liked_material_ids ∧
      kv.1 ∉ user_prefs.disliked_material_ids))

/-- Descending stable order on score entries, Python
`sorted(key=total_score, reverse=True)`. -/
def cb_score_desc (a b : String × CBScore) : Bool :=
  decide (b.2.total_score ≤ a.2.total_score)

/-- Descending stable order on catalog entries by bestseller rating. -/
def cb_rating_desc (a b : String × CBMaterial) : Bool :=
  decide (b.2.bestseller_rating ≤ a.2.bestseller_rating)

/-- Catalog lookup `data_loader.materials[material_id]`.  In the source the
looked-up ids always come from the catalog (the scoring passes iterate it),
so the lookup cannot fail there; the embedding totalises it with a default
record. -/
def lookup_material (materials : List (String × CBMaterial)) (mid : String) :
    CBMaterial :=
  (materials.lookup mid).getD {}

/-- `ContentBasedRecommender._get_popularity_based_recommendations` (lines
785-810): the catalog sorted by bestseller rating descending, truncated to
`limit`, each record carrying a fixed explanation and the score 0.0. -/
def get_popularity_based_recommendations
    (materials : List (String × CBMaterial)) (limit : ℕ) : List CBRecommendation :=
  ((materials.mergeSort cb_rating_desc).take limit).map (fun kv =>
    { material_id := kv.1
      title := kv.2.title
      category := kv.2.category
      class_grade := kv.2.class_grade
      price := kv.2.price
      bestseller_rating := kv.2.bestseller_rating
      score := 0 })

/-- `ContentBasedRecommender.get_recommendations` (lines 449-505): a user
without content preferences gets the popularity baseline; a known user gets
the score dictionary filtered of liked and disliked materials, sorted by
total score descending and truncated to `limit`. -/
def get_recommendations (prefs_map : List (String × UserPrefs))
    (materials : List (String × CBMaterial))
    (material_scores : List (String × CBScore)) (user_id : String)
    (limit : ℕ) : List CBRecommendation :=
  match prefs_map.lookup user_id with
  | none => get_popularity_based_recommendations materials limit
  | some user_prefs =>
      (((filter_known_materials user_prefs material_scores).mergeSort
        cb_score_desc).take limit).map (fun kv =>
        let material := lookup_material materials kv.1
        { material_id := kv.1
          title := material.title
          category := material.category
          class_grade := material.class_grade
          price := material.price
          bestseller_rating := material.bestseller_rating
          score := kv.2.total_score })

end ContentBased

/-- Every recommendation the prototype engine emits names a candidate
material, that is, one of the catalog entries that survived the
purchased-or-downloaded filter. -/
lemma rec_mem_candidates (user_profile : RecProfile) (ue : UserEvents)
    (materials : List (String × Material)) (limit : ℕ) (dv : ℚ) (now : ℤ)
    (rand : ℕ → ℚ) {r : Recommendation}
    (hr : r ∈ recommend_materials user_profile ue materials limit dv now rand) :
    r.material_id ∈ (candidate_materials materials ue).map Prod.fst := by
  by_cases h1 : user_profile.user_id = ""
  · simp only [recommend_materials, if_pos h1] at hr
    simp at hr
  · by_cases h2 : candidate_materials materials ue = []
    · simp only [recommend_materials, if_neg h1, if_pos h2] at hr
      simp at hr
    · simp only [recommend_materials, if_neg h1, if_neg h2] at hr
      set scored := scored_materials materials user_profile ue dv now rand
        with hscored
      set sorted := scored.mergeSort score_desc with hsorted
      set used := sorted.map (fun item => item.material_id) with hused
      rcases List.mem_map.mp hr with ⟨item, hitem, rfl⟩
      show item.material_id ∈ _
      have h3 := List.mem_of_mem_take hitem
      have hmain : item ∈ sorted ∨ item ∈ fallback_items materials ue now used := by
        by_cases hc : sorted.length < limit
        · rw [if_pos hc] at h3
          rcases List.mem_append.mp h3 with h4 | h4
          · exact Or.inl h4
          · exact Or.inr (List.mem_mergeSort.mp (List.mem_of_mem_take h4))
        · rw [if_neg hc] at h3
          exact Or.inl h3
      rcases hmain with h4 | h4
      · have h5 : item ∈ scored := List.mem_mergeSort.mp h4
        have h6 : item.material_id ∈
            ((candidate_materials materials ue).filter has_key_data).map
              Prod.fst := by
          have h7 := List.mem_map_of_mem (fun i : ScoredItem => i.material_id) h5
          rw [hscored, scored_materials_map_id] at h7
          exact h7
        rcases List.mem_map.mp h6 with ⟨p, hp, hpe⟩
        exact hpe ▸ List.mem_map_of_mem Prod.fst (List.mem_filter.mp hp).1
      · have h6 : item.material_id ∈
            ((candidate_materials materials ue).filter (fun p =>
              decide (p.1 ∉ used ∧ p.2.bestseller_rating ≠ 0))).map Prod.fst := by
          have h7 := List.mem_map_of_mem (fun i : ScoredItem => i.material_id) h4
          rw [fallback_items_map_id] at h7
          exact h7
        rcases List.mem_map.mp h6 with ⟨p, hp, hpe⟩
        exact hpe ▸ List.mem_map_of_mem Prod.fst (List.mem_filter.mp hp).1

/-- C4 as amended: the prototype engine excludes exactly the purchased and
downloaded materials from its results — favorited and disliked materials
are not filtered there — while the content-based engine excludes both the
liked materials (purchased or favorited) and the disliked materials of the
requesting user from every result. -/
theorem claim_liked_excluded_amended :
    (∀ (user_profile : RecProfile) (ue : UserEvents)
      (materials : List (String × Material)) (limit : ℕ) (dv : ℚ) (now : ℤ)
      (rand : ℕ → ℚ) (r : Recommendation),
      r ∈ recommend_materials user_profile ue materials limit dv now rand →
      r.material_id ∉ get_user_interactions ue) ∧
    (∀ (prefs_map : List (String × ContentBased.UserPrefs))
      (materials : List (String × ContentBased.CBMaterial))
      (material_scores : List (String × ContentBased.CBScore))
      (user_id : String) (limit : ℕ) (up : ContentBased.UserPrefs)
      (r : ContentBased.CBRecommendation),
      prefs_map.lookup user_id = some up →
      r ∈ ContentBased.get_recommendations prefs_map materials material_scores
        user_id limit →
      r.material_id ∉ up.liked_material_ids ∧
        r.material_id ∉ up.disliked_material_ids) := by
  constructor
  · intro user_profile ue materials limit dv now rand r hr
    have h1 := rec_mem_candidates user_profile ue materials limit dv now rand hr
    rcases List.mem_map.mp h1 with ⟨p, hp, hpe⟩
    rw [candidate_materials] at hp
    have h2 := (List.mem_filter.mp hp).2
    rw [decide_eq_true_eq] at h2
    rw [← hpe]
    exact h2
  · intro prefs_map materials material_scores user_id limit up r hup hr
    rw [ContentBased.get_recommendations, hup] at hr
    dsimp only at hr
    rcases List.mem_map.mp hr with ⟨kv, hkv, rfl⟩
    have h3 : kv ∈ ContentBased.filter_known_materials up material_scores :=
      List.mem_mergeSort.mp (List.mem_of_mem_take hkv)
    have h4 := (List.mem_filter.mp h3).2
    rw [decide_eq_true_eq] at h4
    exact h4

/-- A user history whose only event favorites material m1, and a catalog
containing m1 (the C4 counterexample input). -/
def c4_events : UserEvents :=
  { addToFavorites := [{ material_id := some "m1" }] }

def c4_materials : List (String × Material) :=
  [("m1", { categories := "Math", class_grades := "1" })]

/-- C4 as stated is false for the prototype engine: a material the user has
favorited (liked) is not excluded — with m1 favorited and in the catalog,
the engine recommends m1 itself. -/
theorem claim_liked_excluded_counterexample :
    c4_events.addToFavorites.map (fun e => e.material_id) = [some "m1"] ∧
    (recommend_materials { user_id := "u1" } c4_events c4_materials 1 0 1000
      (fun _ => 0)).map (fun r => r.material_id) = ["m1"] := by
  refine ⟨rfl, ?_⟩
  have hint : get_user_interactions c4_events = [] := rfl
  simp [recommend_materials, candidate_materials, hint, c4_materials,
    scored_materials, has_key_data, format_rec, make_scored_item]

/-! Witness inputs for the amended C4: a user who purchased p1 over a
two-material catalog, and a content-based user with one liked and one
disliked material over a catalog containing a third material. -/

def c4w_material : Material := { categories := "Sport", class_grades := "2" }

def c4w_events : UserEvents := { purchases := [{ material_id := some "p1" }] }

def c4w_materials : List (String × Material) :=
  [("p1", { categories := "Math", class_grades := "1" }), ("m2", c4w_material)]

def c4w_profile : RecProfile := { user_id := "u1" }

def c4w_rec : Recommendation :=
  format_rec (make_scored_item c4w_materials c4w_profile 0 1000 (fun _ => 0)
    (0, ("m2", c4w_material)))

def cbw_prefs : ContentBased.UserPrefs :=
  { liked_material_ids := ["x1"], disliked_material_ids := ["y1"] }

def cbw_materials : List (String × ContentBased.CBMaterial) := [("z1", {})]

def cbw_scores : List (String × ContentBased.CBScore) :=
  [("z1", { total_score := 1 })]

def cbw_rec : ContentBased.CBRecommendation :=
  { material_id := "z1", title := "", category := "", class_grade := "",
    price := 0, bestseller_rating := 0, score := 1 }

/-- Witness for the amended C4 at concrete inputs: the one recommendation
the prototype engine emits is not among the purchased or downloaded ids, and
the one recommendation the content-based engine emits is neither liked nor
disliked. -/
theorem claim_liked_excluded_amended_witness :
    c4w_rec.material_id ∉ get_user_interactions c4w_events ∧
    (cbw_rec.material_id ∉ cbw_prefs.liked_material_ids ∧
      cbw_rec.material_id ∉ cbw_prefs.disliked_material_ids) := by
  constructor
  · refine claim_liked_excluded_amended.1 c4w_profile c4w_events c4w_materials
      1 0 1000 (fun _ => 0) c4w_rec ?_
    have hres : recommend_materials c4w_profile c4w_events c4w_materials 1 0
        1000 (fun _ => 0) = [c4w_rec] := by
      have hint : get_user_interactions c4w_events = ["p1"] := rfl
      simp [recommend_materials, candidate_materials, hint, c4w_materials,
        scored_materials, has_key_data, c4w_rec, c4w_profile, c4w_material]
    rw [hres]
    exact List.mem_singleton.mpr rfl
  · refine claim_liked_excluded_amended.2 [("u1", cbw_prefs)] cbw_materials
      cbw_scores "u1" 1 cbw_prefs cbw_rec rfl ?_
    have hres : ContentBased.get_recommendations [("u1", cbw_prefs)]
        cbw_materials cbw_scores "u1" 1 = [cbw_rec] := by
      simp [ContentBased.get_recommendations, ContentBased.filter_known_materials,
        cbw_prefs, cbw_scores, ContentBased.lookup_material, cbw_materials,
        cbw_rec, List.lookup]
    rw [hres]
    exact List.mem_singleton.mpr rfl

/-! C2 inputs: three materials by the same author a1, all scorable, a user
with no history. -/

def c2_material : Material :=
  { categories := "Math", class_grades := "1", price := 5, author_id := "a1" }

def c2_materials : List (String × Material) :=
  [("m1", c2_material), ("m2", c2_material), ("m3", c2_material)]

def c2_profile : RecProfile := { user_id := "u1" }

def c2_scored : List ScoredItem :=
  [{ material_id := "m1", material := c2_material },
   { material_id := "m2", material := c2_material },
   { material_id := "m3", material := c2_material }]

/-- C2 is violated by the engine: `recommend_materials` never invokes
`_filter_by_author_diversity`, so with three materials of author a1 holding
the top scores and limit 3, all three appear in the result — more than any
cap of 2 (or the configured 4, over a larger catalog) allows.  The filter
itself, had it been called on this scored list with cap 2, would have kept
only the first two items. -/
theorem claim_author_diversity_cap_violated :
    (recommend_materials c2_profile emptyUserEvents c2_materials 3 0 1000
      (fun _ => 0)).length = 3 ∧
    (recommend_materials c2_profile emptyUserEvents c2_materials 3 0 1000
      (fun _ => 0)).map (fun r => r.author_id) = ["a1", "a1", "a1"] ∧
    (filter_by_author_diversity c2_scored 2).map (fun i => i.material_id) =
      ["m1", "m2"] := by
  have hint : get_user_interactions emptyUserEvents = [] := rfl
  have hcand : candidate_materials c2_materials emptyUserEvents = c2_materials := by
    simp [candidate_materials, hint]
  have hflt : c2_materials.filter has_key_data = c2_materials := by
    simp [has_key_data, c2_materials, c2_material]
  have hslen : (scored_materials c2_materials c2_profile emptyUserEvents 0 1000
      (fun _ => 0)).length = 3 := by
    rw [scored_materials, List.length_map, List.enum_length, hcand, hflt]
    rfl
  have huser : ¬ c2_profile.user_id = "" := by simp [c2_profile]
  have hne : ¬ candidate_materials c2_materials emptyUserEvents = [] := by
    rw [hcand]
    simp [c2_materials]
  have hlen : (recommend_materials c2_profile emptyUserEvents c2_materials 3 0
      1000 (fun _ => 0)).length = 3 := by
    simp only [recommend_materials]
    rw [if_neg huser, if_neg hne]
    set sorted := (scored_materials c2_materials c2_profile emptyUserEvents 0
      1000 (fun _ => 0)).mergeSort score_desc with hsorted
    have hs3 : sorted.length = 3 := by
      rw [hsorted, List.length_mergeSort, hslen]
    rw [if_neg (by omega)]
    rw [List.length_map, List.length_take, hs3]
    simp
  have hall : ∀ r ∈ recommend_materials c2_profile emptyUserEvents c2_materials
      3 0 1000 (fun _ => 0), r.author_id = "a1" := by
    intro r hr
    simp only [recommend_materials] at hr
    rw [if_neg huser, if_neg hne] at hr
    set sorted := (scored_materials c2_materials c2_profile emptyUserEvents 0
      1000 (fun _ => 0)).mergeSort score_desc with hsorted
    have hs3 : sorted.length = 3 := by
      rw [hsorted, List.length_mergeSort, hslen]
    rw [if_neg (by omega)] at hr
    rcases List.mem_map.mp hr with ⟨item, hitem, rfl⟩
    have h5 : item ∈ scored_materials c2_materials c2_profile emptyUserEvents 0
        1000 (fun _ => 0) :=
      List.mem_mergeSort.mp (List.mem_of_mem_take hitem)
    have h6 := List.mem_map_of_mem (fun i : ScoredItem => i.material) h5
    rw [scored_materials_map_material, hcand, hflt] at h6
    have h7 : item.material = c2_material := by
      rw [show c2_materials.map (fun p => p.2) =
        [c2_material, c2_material, c2_material] from rfl] at h6
      rcases List.mem_cons.mp h6 with h | h6b
      · exact h
      rcases List.mem_cons.mp h6b with h | h6c
      · exact h
      rcases List.mem_cons.mp h6c with h | h6d
      · exact h
      · cases h6d
    show item.material.author_id = "a1"
    rw [h7]
    rfl
  refine ⟨hlen, ?_, rfl⟩
  have hmap : (recommend_materials c2_profile emptyUserEvents c2_materials 3 0
      1000 (fun _ => 0)).map (fun r => r.author_id) = List.replicate 3 "a1" := by
    rw [List.eq_replicate_iff]
    constructor
    · rw [List.length_map]
      exact hlen
    · intro b hb
      rcases List.mem_map.mp hb with ⟨r, hr, rfl⟩
      exact hall r hr
  rw [hmap]
  rfl

/-- C5 as amended: for a user id with no content preferences,
`get_recommendations` skips the profile-based candidate generation entirely
and returns the popularity baseline: the catalog ordered by bestseller
rating descending (freshness plays no role in this engine), truncated to
`limit`, with every item's score reported as 0.0 (the records carry no
component scores and no fallback flag). -/
theorem claim_unknown_user_popularity_amended
    (prefs_map : List (String × ContentBased.UserPrefs))
    (materials : List (String × ContentBased.CBMaterial))
    (material_scores : List (String × ContentBased.CBScore))
    (user_id : String) (limit : ℕ)
    (h : prefs_map.lookup user_id = none) :
    ContentBased.get_recommendations prefs_map materials material_scores
      user_id limit =
      ContentBased.get_popularity_based_recommendations materials limit ∧
    (ContentBased.get_recommendations prefs_map materials material_scores
      user_id limit).length = min limit materials.length ∧
    (∀ r ∈ ContentBased.get_recommendations prefs_map materials material_scores
      user_id limit, r.score = 0) ∧
    (ContentBased.get_recommendations prefs_map materials material_scores
      user_id limit).Pairwise
      (fun a b => b.bestseller_rating ≤ a.bestseller_rating) := by
  have hdisp : ContentBased.get_recommendations prefs_map materials
      material_scores user_id limit =
      ContentBased.get_popularity_based_recommendations materials limit := by
    rw [ContentBased.get_recommendations, h]
  refine ⟨hdisp, ?_, ?_, ?_⟩
  · rw [hdisp, ContentBased.get_popularity_based_recommendations,
      List.length_map, List.length_take, List.length_mergeSort]
  · intro r hr
    rw [hdisp, ContentBased.get_popularity_based_recommendations] at hr
    rcases List.mem_map.mp hr with ⟨kv, -, rfl⟩
    rfl
  · rw [hdisp, ContentBased.get_popularity_based_recommendations]
    have htrans : ∀ a b c : String × ContentBased.CBMaterial,
        ContentBased.cb_rating_desc a b → ContentBased.cb_rating_desc b c →
        ContentBased.cb_rating_desc a c := by
      intro a b c hab hbc
      simp only [ContentBased.cb_rating_desc, decide_eq_true_eq] at hab hbc ⊢
      exact le_trans hbc hab
    have htotal : ∀ a b : String × ContentBased.CBMaterial,
        ContentBased.cb_rating_desc a b || ContentBased.cb_rating_desc b a := by
      intro a b
      simp only [ContentBased.cb_rating_desc, Bool.or_eq_true, decide_eq_true_eq]
      exact le_total _ _
    have hp := List.sorted_mergeSort htrans htotal materials
    have hp2 := List.Pairwise.sublist (List.take_sublist limit _) hp
    exact List.Pairwise.map _
      (fun a b hab => by
        simpa only [ContentBased.cb_rating_desc, decide_eq_true_eq] using hab)
      hp2

/-- Witness inputs for the amended C5: one registered user u1 and a
two-material catalog. -/
def c5w_prefs_map : List (String × ContentBased.UserPrefs) := [("u1", {})]

def c5w_materials : List (String × ContentBased.CBMaterial) :=
  [("a1m", { bestseller_rating := 100 }), ("b1m", { bestseller_rating := 500 })]

/-- Witness for the amended C5 at the unknown user u2. -/
theorem claim_unknown_user_popularity_amended_witness :
    ContentBased.get_recommendations c5w_prefs_map c5w_materials [] "u2" 5 =
      ContentBased.get_popularity_based_recommendations c5w_materials 5 ∧
    (ContentBased.get_recommendations c5w_prefs_map c5w_materials [] "u2"
      5).length = min 5 c5w_materials.length ∧
    (∀ r ∈ ContentBased.get_recommendations c5w_prefs_map c5w_materials [] "u2"
      5, r.score = 0) ∧
    (ContentBased.get_recommendations c5w_prefs_map c5w_materials [] "u2"
      5).Pairwise (fun a b => b.bestseller_rating ≤ a.bestseller_rating) :=
  claim_unknown_user_popularity_amended c5w_prefs_map c5w_materials [] "u2" 5
    (by simp [c5w_prefs_map, List.lookup])

/-- The freshness-weighted popularity formula that the prototype engine uses
for its fallback pool and that the specification says the popularity
baseline shares: the capped normalised bestseller rating times the freshness
multiplier.  This definition follows the words of the specification, for
comparison with the code of the content-based baseline. -/
def spec_popularity_freshness_score (rating freshness : ℚ) : ℚ :=
  min 1 (rating / 1000) * freshness

/-- C5 as stated is false: the content-based popularity baseline does not
compute the freshness/popularity formula.  For a catalog with one material
of bestseller rating 950, the single returned item carries the score 0.0,
while the spec formula yields a nonzero score under every freshness bucket
(1.5, 1.0 and 0.7), so the reported scores are not that formula; the ranking
key is the raw bestseller rating alone and no freshness factor exists in
this engine. -/
theorem claim_unknown_user_popularity_counterexample :
    (ContentBased.get_recommendations []
      [("b1m", { bestseller_rating := 950 })] [] "u9" 1).map (fun r => r.score) =
      [0] ∧
    spec_popularity_freshness_score 950 config_freshness_recent ≠ 0 ∧
    spec_popularity_freshness_score 950 config_freshness_standard ≠ 0 ∧
    spec_popularity_freshness_score 950 config_freshness_older ≠ 0 := by
  refine ⟨?_, ?_, ?_, ?_⟩
  · simp [ContentBased.get_recommendations, List.lookup,
      ContentBased.get_popularity_based_recommendations]
  · norm_num [spec_popularity_freshness_score, config_freshness_recent, min_def]
  · norm_num [spec_popularity_freshness_score, config_freshness_standard, min_def]
  · norm_num [spec_popularity_freshness_score, config_freshness_older, min_def]

/-! ## Embedding of RecommendationService.explain_recommendations -/

/-- Python `Counter` over a list of strings: counts in first-occurrence
order. -/
def counterCount (items : List String) : List (String × ℕ) :=
  items.foldl (fun acc s => bumpCount acc s) []

/-- `Counter.most_common(n)` for natural counts: stable sort by count
descending, truncated to `n`. -/
def most_commonN (c : List (String × ℕ)) (n : ℕ) : List (String × ℕ) :=
  (c.mergeSort (fun a b => decide (b.2 ≤ a.2))).take n

/-- Python division by a list length: raises `ZeroDivisionError` on an empty
list, modelled as `none`. -/
def safeDiv (a : ℚ) (n : ℕ) : Option ℚ := if n = 0 then none else some (a / n)

/-- The statistics dictionary built by
`RecommendationService.explain_recommendations` for a non-empty result. -/
structure ExplanationStats where
  summary : String
  categories : List (String × ℕ)
  grades : List (String × ℕ)
  price_distribution : List (String × ℕ)
  freshness_recent : ℕ
  freshness_standard : ℕ
  freshness_older : ℕ
  avg_category_match : ℚ
  avg_grade_match : ℚ
  avg_price_match : ℚ
  avg_freshness : ℚ
  avg_popularity : ℚ
  deriving DecidableEq

/-- The two shapes of the explanation: the fixed message record returned for
an empty recommendation list, or the statistics record. -/
inductive ExplanationResult where
  | noRecommendations : ExplanationResult
  | stats : ExplanationStats → ExplanationResult
  deriving DecidableEq

/-- `RecommendationService.explain_recommendations` (recommendation.py lines
452-509): the fixed message for an empty list; otherwise category, grade and
price-bucket counts, a freshness histogram (factor at least 1.5 recent, at
least 1.0 standard, otherwise older) and the arithmetic means of the five
component scores, each mean dividing by the length of the list. -/
def explain_recommendations (recommendations : List Recommendation) :
    Option ExplanationResult :=
  if recommendations = [] then some ExplanationResult.noRecommendations
  else
    let categories := recommendations.foldl
      (fun acc r => acc ++ extract_categories r.categories) []
    let grades := recommendations.foldl
      (fun acc r => acc ++ extract_grades r.class_grades) []
    let price_ranges := recommendations.map (fun r => get_price_range r.price)
    let freshness := recommendations.foldl (fun (t : ℕ × ℕ × ℕ) r =>
      let f := r.recommendation_factors.freshness
      if f ≥ 1.5 then (t.1 + 1, t.2.1, t.2.2)
      else if f ≥ 1 then (t.1, t.2.1 + 1, t.2.2)
      else (t.1, t.2.1, t.2.2 + 1)) (0, 0, 0)
    let n := recommendations.length
    do
      let a1 ← safeDiv ((recommendations.map
        (fun r => r.recommendation_factors.category_match)).sum) n
      let a2 ← safeDiv ((recommendations.map
        (fun r => r.recommendation_factors.grade_match)).sum) n
      let a3 ← safeDiv ((recommendations.map
        (fun r => r.recommendation_factors.price_match)).sum) n
      let a4 ← safeDiv ((recommendations.map
        (fun r => r.recommendation_factors.freshness)).sum) n
      let a5 ← safeDiv ((recommendations.map
        (fun r => r.recommendation_factors.popularity)).sum) n
      some (ExplanationResult.stats
        { summary := "Generated " ++ toString n ++ " recommendations"
          categories := most_commonN (counterCount categories) 5
          grades := most_commonN (counterCount grades) 5
          price_distribution := counterCount price_ranges
          freshness_recent := freshness.1
          freshness_standard := freshness.2.1
          freshness_older := freshness.2.2
          avg_category_match := a1
          avg_grade_match := a2
          avg_price_match := a3
          avg_freshness := a4
          avg_popularity := a5 })

/-- C10: for the empty recommendation list the explanation is the fixed
message record, computed before any division; every division in the
statistics branch divides by the length of the list, which is nonzero there,
so the explanation generator never fails with a division by zero: it
returns a value on every input. -/
theorem claim_explain_no_division_on_empty :
    explain_recommendations [] = some ExplanationResult.noRecommendations ∧
    ∀ recs : List Recommendation, (explain_recommendations recs).isSome = true := by
  constructor
  · rfl
  · intro recs
    by_cases h : recs = []
    · subst h
      rfl
    · have hn : recs.length ≠ 0 := by simpa [List.length_eq_zero] using h
      simp [explain_recommendations, h, safeDiv, hn]

end RecDemo
